import Mathlib

/-!
Shallow embedding of `src/bot.py` (a Telegram ads bot that serves AdsGram
ad units), together with theorems checking the natural-language
specification against it.

Modelling conventions:
* Python `time.time()` values (floats) are modelled as elements of an
  arbitrary linearly ordered ring `α` (so every theorem holds in
  particular for `ℚ` and `ℝ`; concrete witnesses instantiate `α := ℤ`).
* The module-level dict `_last_ad_at : dict[int, float]` is modelled as an
  association list from Telegram user ids (`Int`) to timestamps, with
  `dict.get(k, 0)` / `dict[k] = v` modelled by `lookupLast` / `setLast`.
* The AdsGram HTTP response is modelled by `HttpOutcome`: either a raised
  transport exception, or a response carrying a status code and a body
  parse result (`ParsedBody`).  A JSON-object body is modelled by `AdDict`,
  holding the recognized fields as optional strings; Python truthiness of
  `d.get(field)` is `truthyStr`.
* Handlers are pure functions from their inputs (current time, cooldown
  map, fetch outcome, callback data) to an explicit record of the replies
  sent and the new cooldown map, so that sequencing facts ("no fetch call
  on denial") are observable in the result.
-/

namespace AdsBot

/-- `COOLDOWN_SECONDS = 8` from the source, in the time domain `α`. -/
def COOLDOWN_SECONDS (α : Type) [LinearOrderedRing α] : α := 8

/-- `AD_API = "https://api.adsgram.ai/advbot"` from the source. -/
def AD_API : String := "https://api.adsgram.ai/advbot"

/-- Python truthiness of `d.get(field)` for an optional string field:
`None` and the empty string are falsy. -/
def truthyStr : Option String → Bool
  | some s => s ≠ ""
  | none => false

/-- Python `str.isdigit` (ASCII digits): nonempty and all characters digits;
`"".isdigit()` is `False`. -/
def isdigit (s : String) : Bool :=
  s ≠ "" && s.toList.all Char.isDigit

/-! ### Cooldown tracker (`_last_ad_at`, `_cooldown_ok`) -/

/-- The in-memory cooldown store `_last_ad_at : dict[int, float]`,
modelled as an association list user id to timestamp. -/
abbrev CooldownMap (α : Type) := List (Int × α)

/-- `_last_ad_at.get(user_id, 0)`: last recorded timestamp, defaulting
to `0` when the user has no record. -/
def lookupLast {α : Type} [LinearOrderedRing α] (m : CooldownMap α) (u : Int) : α :=
  match m.find? (fun p => p.1 == u) with
  | some p => p.2
  | none => 0

/-- Whether the user has a prior record in the cooldown map. -/
def hasRecord {α : Type} (m : CooldownMap α) (u : Int) : Bool :=
  (m.find? (fun p => p.1 == u)).isSome

/-- `_last_ad_at[user_id] = t`: dict assignment, replacing any prior
entry for that key. -/
def setLast {α : Type} (m : CooldownMap α) (u : Int) (t : α) : CooldownMap α :=
  (u, t) :: m.filter (fun p => p.1 != u)

/-- `_cooldown_ok(user_id)`: reads the clock `now`, compares against the
last recorded timestamp (default 0), and on success records `now` for the
user.  Returns the boolean decision together with the updated map. -/
def cooldown_ok {α : Type} [LinearOrderedRing α] (now : α) (m : CooldownMap α)
    (u : Int) : Bool × CooldownMap α :=
  let last := lookupLast m u
  if COOLDOWN_SECONDS α ≤ now - last then
    (true, setLast m u now)
  else
    (false, m)

/-! ### Ad fetcher (`_fetch_ad`) -/

/-- The recognized fields of an AdsGram response object, each optional.
`none` models a missing key; `some ""` a present-but-empty value. -/
structure AdDict where
  button_name : Option String := none
  click_url : Option String := none
  button_reward_name : Option String := none
  reward_url : Option String := none
  text_html : Option String := none
  image_url : Option String := none
deriving DecidableEq, Repr

/-- Result of `resp.json()`: parse failure (raises, caught by the
handler), a non-object JSON value, or a JSON object. -/
inductive ParsedBody where
  | fail
  | nonObj
  | obj (d : AdDict)
deriving DecidableEq, Repr

/-- Outcome of the single `requests.get` call: a transport/timeout
exception, or a response with a status code and body. -/
inductive HttpOutcome where
  | exn
  | resp (status : Nat) (body : ParsedBody)
deriving DecidableEq, Repr

/-- The body of `_fetch_ad` applied to the outcome of its one HTTP call:
exception → `none`; status other than 200 → `none`; body not a dict or
with falsy `button_name` → `none`; otherwise the parsed dict.  Totality
of this function models that no exception propagates to the caller. -/
def fetch_ad_core : HttpOutcome → Option AdDict
  | .exn => none
  | .resp status body =>
      if status ≠ 200 then none
      else
        match body with
        | .fail => none
        | .nonObj => none
        | .obj d => if truthyStr d.button_name then some d else none

/-- An outbound HTTP request: the URL and the timeout passed to
`requests.get`. -/
structure Request where
  url : String
  timeout : Nat
deriving DecidableEq, Repr

/-- The URL built by `_fetch_ad`:
`f"{AD_API}?tgid={tgid}&blockid={BLOCK_ID}"`. -/
def fetch_url (tgid : Int) (blockid : String) : String :=
  AD_API ++ "?tgid=" ++ toString tgid ++ "&blockid=" ++ blockid

/-- `_fetch_ad(tgid)`: issues exactly one request (with a 10-second
timeout) against an oracle modelling the network, and returns the parsed
payload or `none`, together with the list of requests issued. -/
def fetch_ad (oracle : Request → HttpOutcome) (tgid : Int) (blockid : String) :
    Option AdDict × List Request :=
  let req : Request := ⟨fetch_url tgid blockid, 10⟩
  (fetch_ad_core (oracle req), [req])

/-! ### Response renderer (button markup and message body built in
`show_ads_common`) -/

/-- One inline keyboard button: label and destination URL. -/
structure InlineButton where
  label : String
  url : String
deriving DecidableEq, Repr

/-- The outbound message form: a photo with caption
(`reply_photo(photo=..., caption=...)`) or plain text (`reply_text`). -/
inductive MsgBody where
  | photo (image : String) (caption : String)
  | text (content : String)
deriving DecidableEq, Repr

/-- A rendered ad message: keyboard rows, body, and the
`protect_content` flag set on the outbound call. -/
structure RenderedMsg where
  buttons : List (List InlineButton)
  body : MsgBody
  protect_content : Bool
deriving DecidableEq, Repr

/-- The text the message body carries (caption of a photo, or content of
a text message). -/
def msgText : MsgBody → String
  | .photo _ c => c
  | .text s => s

/-- Whether the message is sent as a photo. -/
def msgIsPhoto : MsgBody → Bool
  | .photo _ _ => true
  | .text _ => false

/-- The rendering half of `show_ads_common` (lines 113-139): primary
button from `ad["button_name"]` and `ad.get("click_url", "https://t.me")`,
optional reward row when both reward fields are truthy, body
`ad.get("text_html") or "Sponsored"`, photo form iff `ad.get("image_url")`
is truthy, `protect_content=True` on both send calls. -/
def render (ad : AdDict) : RenderedMsg :=
  let primary : InlineButton :=
    ⟨ad.button_name.getD "", ad.click_url.getD "https://t.me"⟩
  let buttons :=
    if truthyStr ad.button_reward_name && truthyStr ad.reward_url then
      [[primary], [⟨ad.button_reward_name.getD "", ad.reward_url.getD ""⟩]]
    else
      [[primary]]
  let text_html :=
    if truthyStr ad.text_html then ad.text_html.getD "" else "Sponsored"
  let body :=
    if truthyStr ad.image_url then
      MsgBody.photo (ad.image_url.getD "") text_html
    else
      MsgBody.text text_html
  ⟨buttons, body, true⟩

/-! ### Command dispatcher (`show_ads_common`, `button_cb`) -/

/-- A user-facing reply sent by the dispatcher. -/
inductive Reply where
  | waitNotice
  | noAdNotice
  | adMessage (msg : RenderedMsg)
deriving DecidableEq, Repr

/-- Observable outcome of one `show_ads_common` run: the new cooldown
map, the replies sent (in order), and whether `_fetch_ad` was called. -/
structure DispatchOut (α : Type) where
  state : CooldownMap α
  replies : List Reply
  fetchCalled : Bool
deriving DecidableEq, Repr

/-- `show_ads_common`: cooldown check first; on denial reply with the
wait notice and stop (no fetch); on success call the fetcher (its result
is the `fetchResult` argument) and either reply with the no-ad notice or
render and send the ad. -/
def show_ads_common {α : Type} [LinearOrderedRing α] (fetchResult : Option AdDict)
    (now : α) (m : CooldownMap α) (u : Int) : DispatchOut α :=
  match cooldown_ok now m u with
  | (false, m1) => ⟨m1, [.waitNotice], false⟩
  | (true, m1) =>
      match fetchResult with
      | none => ⟨m1, [.noAdNotice], true⟩
      | some ad => ⟨m1, [.adMessage (render ad)], true⟩

/-- An action performed by the button callback handler: acknowledging the
callback query (`query.answer()`), or running the ad-serving sequence and
sending its replies. -/
inductive CbAction where
  | ack
  | dispatch (replies : List Reply)
deriving DecidableEq, Repr

/-- `button_cb`: acknowledge the callback query first, unconditionally;
then run `show_ads_common` only when the callback data is
`"show_ads"`. Returns the action trace in order and the new cooldown
map. -/
def button_cb {α : Type} [LinearOrderedRing α] (fetchResult : Option AdDict)
    (now : α) (m : CooldownMap α) (u : Int) (data : Option String) :
    List CbAction × CooldownMap α :=
  if data = some "show_ads" then
    let o := show_ads_common fetchResult now m u
    ([.ack, .dispatch o.replies], o.state)
  else
    ([.ack], m)

/-! ### Startup configuration (module-level checks and `main`) -/

/-- The environment-provided configuration values as read by
`os.getenv`: `none` when the variable is unset. -/
structure Env where
  bot_token : Option String
  block_id : Option String
deriving DecidableEq, Repr

/-- The running state `main` reaches after validation: handlers
registered and polling started. -/
structure Running where
  handlers : List String
  polling : Bool
deriving DecidableEq, Repr

/-- The module-level validation (lines 29-32): raise on a falsy token,
then raise on a falsy or non-digit block id; otherwise return the pair. -/
def validate_config (e : Env) : Except String (String × String) :=
  if ¬ truthyStr e.bot_token then
    .error "Missing BOT_TOKEN env var"
  else if ¬ (truthyStr e.block_id && isdigit (e.block_id.getD "")) then
    .error "BLOCK_ID must be numeric and set as env var"
  else
    .ok (e.bot_token.getD "", e.block_id.getD "")

/-- Process startup: validation runs at import time, before `main`; on
success `main` registers the four handlers and starts polling.  The
error case yields no `Running`, modelling that the event loop is never
reached. -/
def startup (e : Env) : Except String Running :=
  match validate_config e with
  | .error msg => .error msg
  | .ok _ => .ok ⟨["start", "help", "ads", "callback_query"], true⟩

/-- Whether a startup outcome reached the polling event loop: only an
`ok` outcome that started polling did. -/
def reachedEventLoop : Except String Running → Bool
  | .ok r => r.polling
  | .error _ => false

/-! ### Helper lemmas -/

/-- Looking up a user right after recording a timestamp for them returns
that timestamp. -/
theorem lookupLast_setLast {α : Type} [LinearOrderedRing α] (m : CooldownMap α)
    (u : Int) (t : α) : lookupLast (setLast m u t) u = t := by
  simp [lookupLast, setLast, List.find?]

/-- The cooldown decision is `true` exactly when at least
`COOLDOWN_SECONDS` have elapsed since the stored timestamp (0 for a user
with no record). -/
theorem cooldown_ok_true_iff {α : Type} [LinearOrderedRing α] (now : α)
    (m : CooldownMap α) (u : Int) :
    (cooldown_ok now m u).1 = true ↔ COOLDOWN_SECONDS α ≤ now - lookupLast m u := by
  by_cases h : COOLDOWN_SECONDS α ≤ now - lookupLast m u <;> simp [cooldown_ok, h]

/-- On an allowed request the map records `now` for the user. -/
theorem cooldown_ok_snd_of_true {α : Type} [LinearOrderedRing α] (now : α)
    (m : CooldownMap α) (u : Int) (h : (cooldown_ok now m u).1 = true) :
    (cooldown_ok now m u).2 = setLast m u now := by
  by_cases hc : COOLDOWN_SECONDS α ≤ now - lookupLast m u
  · simp [cooldown_ok, hc]
  · exact absurd h (by simp [cooldown_ok, hc])

/-- On a denied request the map is returned unchanged. -/
theorem cooldown_ok_snd_of_false {α : Type} [LinearOrderedRing α] (now : α)
    (m : CooldownMap α) (u : Int) (h : (cooldown_ok now m u).1 = false) :
    (cooldown_ok now m u).2 = m := by
  by_cases hc : COOLDOWN_SECONDS α ≤ now - lookupLast m u
  · exact absurd h (by simp [cooldown_ok, hc])
  · simp [cooldown_ok, hc]

/-! ### Claim C2 -/

/-- C2 counterexample: the claim says a user with no prior record is
always allowed, but the code treats a missing record as timestamp `0`, so
a call at time `3` with an empty map is denied (`3 - 0 < 8`) even though
`hasRecord` is `false`. -/
theorem c2_cooldown_counterexample :
    ¬ (((cooldown_ok (3 : ℤ) [] 0).1 = true) ↔
        (hasRecord ([] : CooldownMap ℤ) 0 = false ∨
          COOLDOWN_SECONDS ℤ ≤ (3 : ℤ) - lookupLast ([] : CooldownMap ℤ) 0)) := by
  decide

/-- C2 (amended): the cooldown check returns true iff at least 8 seconds
have elapsed since the user's stored timestamp, where a user with no
prior record is treated as having timestamp 0; when it returns true it
records the call time for that user in the same call; consequently a
second request at least 8 seconds after an allowed one is also
allowed. -/
theorem c2_cooldown_amended {α : Type} [LinearOrderedRing α] (now t2 : α)
    (m : CooldownMap α) (u : Int) :
    ((cooldown_ok now m u).1 = true ↔ COOLDOWN_SECONDS α ≤ now - lookupLast m u)
    ∧ ((cooldown_ok now m u).1 = true →
        lookupLast (cooldown_ok now m u).2 u = now)
    ∧ ((cooldown_ok now m u).1 = true → COOLDOWN_SECONDS α ≤ t2 - now →
        (cooldown_ok t2 (cooldown_ok now m u).2 u).1 = true) := by
  refine ⟨cooldown_ok_true_iff now m u, fun h => ?_, fun h h2 => ?_⟩
  · rw [cooldown_ok_snd_of_true now m u h, lookupLast_setLast]
  · rw [cooldown_ok_true_iff, cooldown_ok_snd_of_true now m u h, lookupLast_setLast]
    exact h2

/-- Witness for C2 (amended) at `now = 10`, `t2 = 18`, empty map,
user 0. -/
theorem c2_cooldown_amended_witness :
    (COOLDOWN_SECONDS ℤ ≤ (10 : ℤ) - lookupLast ([] : CooldownMap ℤ) 0)
    ∧ (cooldown_ok (10 : ℤ) [] 0).1 = true
    ∧ lookupLast (cooldown_ok (10 : ℤ) [] 0).2 0 = 10
    ∧ (cooldown_ok (18 : ℤ) (cooldown_ok (10 : ℤ) [] 0).2 0).1 = true :=
  ⟨by decide,
   (c2_cooldown_amended (10 : ℤ) 18 [] 0).1.mpr (by decide),
   (c2_cooldown_amended (10 : ℤ) 18 [] 0).2.1 (by decide),
   (c2_cooldown_amended (10 : ℤ) 18 [] 0).2.2 (by decide) (by decide)⟩

/-! ### Claim C9 -/

/-- C9: a denied cooldown check leaves the map completely unchanged, so a
later request at least 8 seconds after the stored timestamp is allowed no
matter how many denied requests happened in between. -/
theorem c9_denied_leaves_map_unchanged {α : Type} [LinearOrderedRing α]
    (now t2 : α) (m : CooldownMap α) (u : Int) :
    ((cooldown_ok now m u).1 = false → (cooldown_ok now m u).2 = m)
    ∧ ((cooldown_ok now m u).1 = false →
        COOLDOWN_SECONDS α ≤ t2 - lookupLast m u →
        (cooldown_ok t2 (cooldown_ok now m u).2 u).1 = true) := by
  refine ⟨cooldown_ok_snd_of_false now m u, fun h h2 => ?_⟩
  rw [cooldown_ok_snd_of_false now m u h, cooldown_ok_true_iff]
  exact h2

/-- Witness for C9 at a denied request (`now = 3`, empty map) followed by
an allowed one at `t2 = 8`. -/
theorem c9_denied_leaves_map_unchanged_witness :
    (cooldown_ok (3 : ℤ) [] 0).1 = false
    ∧ (cooldown_ok (3 : ℤ) [] 0).2 = ([] : CooldownMap ℤ)
    ∧ (cooldown_ok (8 : ℤ) (cooldown_ok (3 : ℤ) [] 0).2 0).1 = true :=
  ⟨by decide,
   (c9_denied_leaves_map_unchanged (3 : ℤ) 8 [] 0).1 (by decide),
   (c9_denied_leaves_map_unchanged (3 : ℤ) 8 [] 0).2 (by decide) (by decide)⟩

/-! ### Claim C3 -/

/-- C3: the dispatcher runs the cooldown check before any fetch; on
denial it replies with the wait notice and performs no fetch call; when
allowed and the fetch returns `none` it replies with the no-ad notice and
sends no ad message; an ad message is sent, rendered from the payload,
exactly when the fetch returns a payload. -/
theorem c3_dispatch_sequence {α : Type} [LinearOrderedRing α]
    (fr : Option AdDict) (now : α) (m : CooldownMap α) (u : Int) :
    ((cooldown_ok now m u).1 = false →
      (show_ads_common fr now m u).replies = [Reply.waitNotice]
      ∧ (show_ads_common fr now m u).fetchCalled = false)
    ∧ ((cooldown_ok now m u).1 = true → fr = none →
      (show_ads_common fr now m u).replies = [Reply.noAdNotice])
    ∧ (∀ ad, (cooldown_ok now m u).1 = true → fr = some ad →
      (show_ads_common fr now m u).replies = [Reply.adMessage (render ad)])
    ∧ (∀ msg, Reply.adMessage msg ∈ (show_ads_common fr now m u).replies →
      (cooldown_ok now m u).1 = true ∧ ∃ ad, fr = some ad ∧ msg = render ad) := by
  by_cases h8 : COOLDOWN_SECONDS α ≤ now - lookupLast m u
  · cases fr <;> simp [show_ads_common, cooldown_ok, h8]
  · cases fr <;> simp [show_ads_common, cooldown_ok, h8]

/-- Witness for C3: with an empty map, user 0 at time 9 is allowed and a
concrete payload is rendered and sent; at time 3 the request is denied,
the wait notice is sent and no fetch happens. -/
theorem c3_dispatch_sequence_witness :
    ((cooldown_ok (9 : ℤ) [] 0).1 = true
      ∧ (show_ads_common (some (AdDict.mk (some "View") none none none none none))
          (9 : ℤ) [] 0).replies =
        [Reply.adMessage (render (AdDict.mk (some "View") none none none none none))])
    ∧ ((cooldown_ok (3 : ℤ) [] 0).1 = false
      ∧ (show_ads_common none (3 : ℤ) [] 0).replies = [Reply.waitNotice]
      ∧ (show_ads_common none (3 : ℤ) [] 0).fetchCalled = false) :=
  ⟨⟨by decide,
    (c3_dispatch_sequence (some (AdDict.mk (some "View") none none none none none))
        (9 : ℤ) [] 0).2.2.1
      (AdDict.mk (some "View") none none none none none) (by decide) rfl⟩,
   ⟨by decide,
    ((c3_dispatch_sequence none (3 : ℤ) [] 0).1 (by decide)).1,
    ((c3_dispatch_sequence none (3 : ℤ) [] 0).1 (by decide)).2⟩⟩

/-! ### Claim C10 -/

/-- C10: whenever the cooldown check allows an ad request, the user's
timestamp is set to the check time in the resulting dispatcher state,
regardless of whether the fetch returned a payload or `none`. -/
theorem c10_timestamp_recorded_regardless_of_fetch {α : Type}
    [LinearOrderedRing α] (fr : Option AdDict) (now : α) (m : CooldownMap α)
    (u : Int) (h : (cooldown_ok now m u).1 = true) :
    lookupLast (show_ads_common fr now m u).state u = now := by
  have hsnd := cooldown_ok_snd_of_true now m u h
  have hstate : (show_ads_common fr now m u).state = (cooldown_ok now m u).2 := by
    by_cases h8 : COOLDOWN_SECONDS α ≤ now - lookupLast m u
    · cases fr <;> simp [show_ads_common, cooldown_ok, h8]
    · cases fr <;> simp [show_ads_common, cooldown_ok, h8]
  rw [hstate, hsnd, lookupLast_setLast]

/-- Witness for C10: at time 9 with an empty map the request is allowed
and—even though the fetch returned `none`—the stored timestamp becomes
9. -/
theorem c10_timestamp_recorded_witness :
    (cooldown_ok (9 : ℤ) [] 0).1 = true
    ∧ lookupLast (show_ads_common none (9 : ℤ) [] 0).state 0 = 9 :=
  ⟨by decide, c10_timestamp_recorded_regardless_of_fetch none (9 : ℤ) [] 0 (by decide)⟩

/-! ### Claim C8 -/

/-- C8: the button callback acknowledges the query first, before and
independently of everything else; the ad-serving sequence runs only when
the callback data is exactly `"show_ads"`, and any other data produces
the acknowledgement alone, with the cooldown map untouched. -/
theorem c8_button_cb_ack_and_gate {α : Type} [LinearOrderedRing α]
    (fr : Option AdDict) (now : α) (m : CooldownMap α) (u : Int)
    (data : Option String) :
    (button_cb fr now m u data).1.head? = some CbAction.ack
    ∧ (data ≠ some "show_ads" →
        (button_cb fr now m u data).1 = [CbAction.ack]
        ∧ (button_cb fr now m u data).2 = m)
    ∧ (data = some "show_ads" →
        (button_cb fr now m u data).1 =
          [CbAction.ack, CbAction.dispatch (show_ads_common fr now m u).replies]
        ∧ (button_cb fr now m u data).2 = (show_ads_common fr now m u).state) := by
  by_cases hd : data = some "show_ads" <;> simp [button_cb, hd]

/-- Witness for C8: a tap with data `"other"` is acknowledged and
produces no dispatch; a tap with data `"show_ads"` dispatches. -/
theorem c8_button_cb_witness :
    ((some "other" : Option String) ≠ some "show_ads"
      ∧ (button_cb none (0 : ℤ) [] 0 (some "other")).1 = [CbAction.ack])
    ∧ (button_cb none (9 : ℤ) [] 0 (some "show_ads")).1 =
        [CbAction.ack, CbAction.dispatch (show_ads_common none (9 : ℤ) [] 0).replies] :=
  ⟨⟨by decide,
    ((c8_button_cb_ack_and_gate none (0 : ℤ) [] 0 (some "other")).2.1 (by decide)).1⟩,
   ((c8_button_cb_ack_and_gate none (9 : ℤ) [] 0 (some "show_ads")).2.2 rfl).1⟩

/-! ### Claim C1 -/

/-- C1 counterexample: the claim says every 2xx status with a valid
object body yields the payload, but the code tests `status_code != 200`,
so a 201 response whose body is an object with non-empty `button_name`
still returns `none`. -/
theorem c1_fetch_counterexample :
    ¬ (((fetch_ad_core
          (HttpOutcome.resp 201
            (ParsedBody.obj (AdDict.mk (some "View") none none none none none)))).isSome
        = true) ↔
      ((200 ≤ 201 ∧ 201 < 300)
        ∧ truthyStr (AdDict.mk (some "View") none none none none none).button_name
          = true)) := by
  decide

/-- C1 (amended): the fetcher returns the parsed payload iff the HTTP
status is exactly 200 and the body parses to a structured object whose
`button_name` field is present and non-empty; in every other case
(non-200 status, exception, unparseable body, non-object body, missing or
empty `button_name`) it returns `none`. -/
theorem c1_fetch_amended (o : HttpOutcome) (d : AdDict) :
    fetch_ad_core o = some d ↔
      (o = HttpOutcome.resp 200 (ParsedBody.obj d)
        ∧ truthyStr d.button_name = true) := by
  constructor
  · intro h
    cases o with
    | exn => simp [fetch_ad_core] at h
    | resp s b =>
        by_cases hs : s = 200
        · subst hs
          cases b with
          | fail => simp [fetch_ad_core] at h
          | nonObj => simp [fetch_ad_core] at h
          | obj d0 =>
              by_cases hb : truthyStr d0.button_name = true
              · simp [fetch_ad_core, hb] at h
                subst h
                exact ⟨rfl, hb⟩
              · simp [fetch_ad_core, hb] at h
        · simp [fetch_ad_core, hs] at h
  · rintro ⟨rfl, hb⟩
    simp [fetch_ad_core, hb]

/-! ### Claim C7 -/

/-- C7: each invocation of the fetcher issues exactly one HTTP request,
carrying the built URL and a 10-second timeout; when that one request
raises a transport exception the result is `none` — the fetcher is a
total function of the outcome, so no exception reaches the caller. -/
theorem c7_fetch_single_attempt (oracle : Request → HttpOutcome) (tgid : Int)
    (blockid : String) :
    (fetch_ad oracle tgid blockid).2 = [Request.mk (fetch_url tgid blockid) 10]
    ∧ (fetch_ad oracle tgid blockid).2.length = 1
    ∧ (oracle (Request.mk (fetch_url tgid blockid) 10) = HttpOutcome.exn →
        (fetch_ad oracle tgid blockid).1 = none) := by
  refine ⟨rfl, rfl, fun h => ?_⟩
  simp [fetch_ad, h, fetch_ad_core]

/-- Witness for C7 with an always-raising network oracle. -/
theorem c7_fetch_single_attempt_witness :
    ((fun _ => HttpOutcome.exn) (Request.mk (fetch_url 5 "123") 10)
        = HttpOutcome.exn)
    ∧ (fetch_ad (fun _ => HttpOutcome.exn) 5 "123").1 = none
    ∧ (fetch_ad (fun _ => HttpOutcome.exn) 5 "123").2.length = 1 :=
  ⟨rfl,
   (c7_fetch_single_attempt (fun _ => HttpOutcome.exn) 5 "123").2.2 rfl,
   (c7_fetch_single_attempt (fun _ => HttpOutcome.exn) 5 "123").2.1⟩

/-! ### Claim C5 -/

/-- C5: the first keyboard row is the primary button, labelled with the
payload's button label and targeting the payload's click URL or the
fallback `https://t.me` when the click URL is absent; the keyboard has a
second row iff both reward fields are present and non-empty, and in that
case the second row is the reward button built from those two fields. -/
theorem c5_render_buttons (ad : AdDict) (bn : String)
    (h : ad.button_name = some bn) :
    (render ad).buttons.head? =
      some [InlineButton.mk bn (ad.click_url.getD "https://t.me")]
    ∧ ((render ad).buttons.length = 2 ↔
        (truthyStr ad.button_reward_name = true ∧ truthyStr ad.reward_url = true))
    ∧ (∀ rn ru, ad.button_reward_name = some rn → ad.reward_url = some ru →
        rn ≠ "" → ru ≠ "" →
        (render ad).buttons =
          [[InlineButton.mk bn (ad.click_url.getD "https://t.me")],
           [InlineButton.mk rn ru]]) := by
  refine ⟨?_, ?_, ?_⟩
  · by_cases h1 : truthyStr ad.button_reward_name = true <;>
      by_cases h2 : truthyStr ad.reward_url = true <;>
      simp [render, h, h1, h2]
  · by_cases h1 : truthyStr ad.button_reward_name = true <;>
      by_cases h2 : truthyStr ad.reward_url = true <;>
      simp [render, h1, h2]
  · intro rn ru hrn hru hn1 hn2
    have h1 : truthyStr ad.button_reward_name = true := by simp [truthyStr, hrn, hn1]
    have h2 : truthyStr ad.reward_url = true := by simp [truthyStr, hru, hn2]
    simp [render, h, hrn, hru, h1, h2, truthyStr, hn1, hn2]

/-- Witness for C5 at the spec's example payload: `button_name "View"`,
reward pair present, no `click_url` — the primary button falls back to
`https://t.me` and the reward row is included. -/
theorem c5_render_buttons_witness :
    (AdDict.mk (some "View") none (some "Claim") (some "https://x") none none).button_name
      = some "View"
    ∧ (render (AdDict.mk (some "View") none (some "Claim") (some "https://x")
        none none)).buttons.head? = some [InlineButton.mk "View" "https://t.me"]
    ∧ (render (AdDict.mk (some "View") none (some "Claim") (some "https://x")
        none none)).buttons =
        [[InlineButton.mk "View" "https://t.me"], [InlineButton.mk "Claim" "https://x"]] :=
  ⟨rfl,
   (c5_render_buttons
     (AdDict.mk (some "View") none (some "Claim") (some "https://x") none none)
     "View" rfl).1,
   (c5_render_buttons
     (AdDict.mk (some "View") none (some "Claim") (some "https://x") none none)
     "View" rfl).2.2 "Claim" "https://x" rfl rfl (by decide) (by decide)⟩

/-! ### Claim C6 -/

/-- C6 counterexample: a payload whose `text_html` and `image_url` are
present but empty.  The claim predicts the body is the (empty) caption
and the message is sent as a photo; the code treats both fields by Python
truthiness, renders the placeholder "Sponsored" and sends plain text. -/
theorem c6_render_body_counterexample :
    (AdDict.mk (some "View") none none none (some "") (some "")).text_html = some ""
    ∧ (AdDict.mk (some "View") none none none (some "") (some "")).image_url = some ""
    ∧ ¬ (msgText (render (AdDict.mk (some "View") none none none (some "")
          (some ""))).body = "")
    ∧ ¬ (msgIsPhoto (render (AdDict.mk (some "View") none none none (some "")
          (some ""))).body = true ↔
        (AdDict.mk (some "View") none none none (some "")
          (some "")).image_url.isSome = true) := by
  decide

/-- C6 (amended): the rendered body text is the payload's HTML caption
when present and non-empty, and the literal "Sponsored" otherwise; the
message is a photo with that text as caption iff the image URL is present
and non-empty, else plain text; both forms set `protect_content`. -/
theorem c6_render_body_amended (ad : AdDict) :
    msgText (render ad).body =
      (if truthyStr ad.text_html = true then ad.text_html.getD "" else "Sponsored")
    ∧ msgIsPhoto (render ad).body = truthyStr ad.image_url
    ∧ (∀ img, ad.image_url = some img → img ≠ "" →
        (render ad).body = MsgBody.photo img (msgText (render ad).body))
    ∧ (render ad).protect_content = true := by
  refine ⟨?_, ?_, ?_, ?_⟩
  · by_cases hi : truthyStr ad.image_url = true <;>
      by_cases ht : truthyStr ad.text_html = true <;>
      simp [render, msgText, hi, ht]
  · by_cases hi : truthyStr ad.image_url = true <;>
      simp [render, msgIsPhoto, hi]
  · intro img himg hne
    have hi : truthyStr ad.image_url = true := by simp [truthyStr, himg, hne]
    simp [render, msgText, hi, himg, truthyStr, hne]
  · simp [render]

/-- Witness for C6 at a payload with a non-empty caption and image URL:
the body is a photo carrying the caption, with content protection. -/
theorem c6_render_body_amended_witness :
    (AdDict.mk (some "View") none none none (some "hello") (some "https://img")).image_url
      = some "https://img"
    ∧ ("https://img" : String) ≠ ""
    ∧ (render (AdDict.mk (some "View") none none none (some "hello")
        (some "https://img"))).body =
        MsgBody.photo "https://img"
          (msgText (render (AdDict.mk (some "View") none none none (some "hello")
            (some "https://img"))).body)
    ∧ (render (AdDict.mk (some "View") none none none (some "hello")
        (some "https://img"))).protect_content = true :=
  ⟨rfl, by decide,
   (c6_render_body_amended
     (AdDict.mk (some "View") none none none (some "hello")
       (some "https://img"))).2.2.1 "https://img" rfl (by decide),
   (c6_render_body_amended
     (AdDict.mk (some "View") none none none (some "hello")
       (some "https://img"))).2.2.2⟩

/-! ### Claim C4 -/

/-- C4 counterexample: with the token environment value present but equal
to the empty string and a numeric block id, the claim predicts validation
passes, but the code tests Python truthiness of the token and raises. -/
theorem c4_startup_counterexample :
    ((Env.mk (some "") (some "123")).bot_token.isSome = true
      ∧ isdigit "123" = true)
    ∧ reachedEventLoop (startup (Env.mk (some "") (some "123"))) = false
    ∧ startup (Env.mk (some "") (some "123")) =
        Except.error "Missing BOT_TOKEN env var" :=
  ⟨⟨rfl, by decide⟩, rfl, rfl⟩

/-- C4 (amended): startup raises a configuration error before the event
loop whenever the token is absent or empty, or the block id is absent,
empty, or not all-digits; when the token is present and non-empty and the
block id is all-digits, validation passes and the process registers the
four handlers and polls. -/
theorem c4_startup_amended (e : Env) :
    ((∃ r, startup e = Except.ok r) ↔
      (truthyStr e.bot_token = true ∧ truthyStr e.block_id = true
        ∧ isdigit (e.block_id.getD "") = true))
    ∧ (∀ r, startup e = Except.ok r →
        r.handlers = ["start", "help", "ads", "callback_query"] ∧ r.polling = true)
    ∧ (¬ (truthyStr e.bot_token = true ∧ truthyStr e.block_id = true
          ∧ isdigit (e.block_id.getD "") = true) →
        ∃ msg, startup e = Except.error msg
          ∧ reachedEventLoop (startup e) = false) := by
  by_cases ht : truthyStr e.bot_token = true
  · by_cases hb : truthyStr e.block_id = true
    · by_cases hd : isdigit (e.block_id.getD "") = true
      · simp [startup, validate_config, reachedEventLoop, ht, hb, hd]
      · simp [startup, validate_config, reachedEventLoop, ht, hb, hd]
    · simp [startup, validate_config, reachedEventLoop, ht, hb]
  · simp [startup, validate_config, reachedEventLoop, ht]

/-- Witness for C4 (amended): a non-empty token and the numeric block id
"123" start polling; a missing token yields the configuration error. -/
theorem c4_startup_amended_witness :
    ((truthyStr (some "tok") = true ∧ truthyStr (some "123") = true
        ∧ isdigit ((some "123" : Option String).getD "") = true)
      ∧ (∃ r, startup (Env.mk (some "tok") (some "123")) = Except.ok r))
    ∧ (¬ (truthyStr (none : Option String) = true
          ∧ truthyStr (some "123") = true
          ∧ isdigit ((some "123" : Option String).getD "") = true)
      ∧ ∃ msg, startup (Env.mk none (some "123")) = Except.error msg
          ∧ reachedEventLoop (startup (Env.mk none (some "123"))) = false) :=
  ⟨⟨by decide,
    (c4_startup_amended (Env.mk (some "tok") (some "123"))).1.mpr
      ⟨by decide, by decide, by decide⟩⟩,
   ⟨by decide,
    (c4_startup_amended (Env.mk none (some "123"))).2.2 (by decide)⟩⟩

end AdsBot
